import Mathlib

/-!
A shallow embedding of the fingerprint HAL coordinator
(`aidl/fingerprint/Fingerprint.cpp` / `Fingerprint.h`) of the
`hardware_xiaomi` repository, together with theorems settling the
specification claims about it.

The embedding follows the source closely:

* the vendor backend (`hw_get_module_by_class`, `module->common.methods->open`,
  `fp_device->set_notify`, `device->common.close`) is external code; its
  behaviour is supplied through an explicit environment record (`HalEnv`) of
  per-candidate outcomes, so that `openHal` and the discovery loop in the
  constructor are total functions of that environment;
* opaque pointers (device handles, callbacks, the UDFPS handler, the lockout
  tracker) are modelled by `Nat` identifiers, with `Option` for nullable ones;
* the `CHECK` macro in `createSession` aborts the process: `createSession`
  returns a sum distinguishing the abort (carrying the state at the moment of
  abort, which `CHECK` does not modify) from normal completion;
* `ndk::ScopedAStatus` is modelled by `Status`, with `Status.ok` for
  `ndk::ScopedAStatus::ok()`;
* compile-time `#ifdef USES_UDFPS_SENSOR` branching is a `BuildConfig` record;
* logging is not modelled except where a claim is about the presence of a
  log-and-drop path, in which case the dropped/forwarded distinction is made
  explicit in the result type.
-/

namespace Fingerprint

/-- `FingerprintSensorType` from the AIDL interface; the source uses
`UNDER_DISPLAY_OPTICAL` (UDFPS builds) and `UNKNOWN` (otherwise). -/
inductive FingerprintSensorType where
  | UNKNOWN
  | REAR
  | UNDER_DISPLAY_ULTRASONIC
  | UNDER_DISPLAY_OPTICAL
  | POWER_BUTTON
  | HOME_BUTTON
  deriving DecidableEq, Repr

/-- `common::SensorStrength` from the AIDL interface. -/
inductive SensorStrength where
  | CONVENIENCE
  | WEAK
  | STRONG
  deriving DecidableEq, Repr

/-- `common::ComponentInfo`: the five string fields used by the aggregate
initializers in `getSensorProps`. -/
structure ComponentInfo where
  componentId : String
  hardwareVersion : String
  firmwareVersion : String
  serialNumber : String
  softwareVersion : String
  deriving DecidableEq, Repr

/-- `common::CommonProps` as initialized in `getSensorProps`. -/
structure CommonProps where
  sensorId : Int
  sensorStrength : SensorStrength
  maxEnrollmentsPerUser : Int
  componentInfo : List ComponentInfo
  deriving DecidableEq, Repr

/-- `SensorLocation`: the three coordinate fields assigned by
`getSensorProps`. The AIDL parcelable's default-constructed value is not
determined by the sources under verification, so it is passed in explicitly
where needed. -/
structure SensorLocation where
  sensorLocationX : Int
  sensorLocationY : Int
  sensorRadius : Int
  deriving DecidableEq, Repr

/-- `SensorProps`, with fields in the order of the aggregate initializer
`*out = {{commonProps, mSensorType, {sensorLocation}, mSupportsGestures,
false, false, false, std::nullopt}}`. The trailing `std::optional` field is
modelled as an `Option Nat` identifier. -/
structure SensorProps where
  commonProps : CommonProps
  sensorType : FingerprintSensorType
  sensorLocations : List SensorLocation
  supportsNavigationGestures : Bool
  supportsDetectInteraction : Bool
  halHandlesDisplayTouches : Bool
  halControlsIllumination : Bool
  sensorShape : Option Nat
  deriving DecidableEq, Repr

/-- `ndk::ScopedAStatus` results returned by the binder entry points. -/
inductive Status where
  | ok
  deriving DecidableEq, Repr

/-- Constants from the anonymous namespace of `Fingerprint.cpp`. -/
def SENSOR_ID : Int := 0

def SENSOR_STRENGTH : SensorStrength := SensorStrength.STRONG

def MAX_ENROLLMENTS_PER_USER : Int := 7

def HW_COMPONENT_ID : String := "fingerprintSensor"

def HW_VERSION : String := "vendor/model/revision"

def FW_VERSION : String := "1.01"

def SERIAL_NUMBER : String := "00000001"

def SW_COMPONENT_ID : String := "matchingAlgorithm"

def SW_VERSION : String := "vendor/version/revision"

/-- The fixed ordered candidate list `kModules`. -/
def kModules : List String :=
  ["fpc", "fpc_fod", "goodix", "goodix_fod", "goodix_fod6", "silead", "syna"]

/-- Build-time configuration: whether `USES_UDFPS_SENSOR` is defined, and if
so the `UDFPS_LOCATION_X/Y` and `UDFPS_RADIUS` constants. -/
structure BuildConfig where
  usesUdfpsSensor : Bool
  udfpsLocationX : Int
  udfpsLocationY : Int
  udfpsRadius : Int
  deriving DecidableEq, Repr

/-- Outcomes of the external backend-module operations, per candidate class
name. A device handle is a positive `Nat` identifier. -/
structure HalEnv where
  /-- Return status of `hw_get_module_by_class` for this class name. -/
  getModuleStatus : String → Int
  /-- Whether `hw_mdl` is non-null after a zero-status
  `hw_get_module_by_class`. -/
  moduleNonNull : String → Bool
  /-- Whether `module->common.methods->open` is a non-null pointer. -/
  openMethodNonNull : String → Bool
  /-- Return status of `module->common.methods->open`. -/
  openStatus : String → Int
  /-- The device handle produced by a successful open. -/
  deviceOf : String → Nat
  /-- Return status of `fp_device->set_notify(fp_device, Fingerprint::notify)`
  on the opened device. -/
  setNotifyStatus : Nat → Int
  /-- `USES_UDFPS_SENSOR` only: whether `getUdfpsHandlerFactory()` returns a
  non-null factory. -/
  udfpsFactoryNonNull : Bool
  /-- `USES_UDFPS_SENSOR` only: whether `mUdfpsHandlerFactory->create()`
  returns a non-null handler. -/
  udfpsCreateNonNull : Bool
  /-- The handler produced by a successful `create()`. -/
  udfpsHandlerOf : Nat

/-- `Fingerprint::openHal`: resolve the module by class, validate it, open
the device, and register the static notification callback; any failing stage
logs and returns `nullptr` (here `none`). -/
def openHal (env : HalEnv) (class_name : String) : Option Nat :=
  if env.getModuleStatus class_name ≠ 0 then none
  else if ¬ env.moduleNonNull class_name then none
  else if ¬ env.openMethodNonNull class_name then none
  else if env.openStatus class_name ≠ 0 then none
  else if env.setNotifyStatus (env.deviceOf class_name) ≠ 0 then none
  else some (env.deviceOf class_name)

/-- The discovery loop in the `Fingerprint` constructor: try each candidate
in order with `openHal`, stopping at the first success. Returns the device
handle found (if any) together with the list of candidates actually
attempted, in order. -/
def discoverTrace (env : HalEnv) : List String → Option Nat × List String
  | [] => (none, [])
  | c :: rest =>
    match openHal env c with
    | some d => (some d, [c])
    | none =>
      let r := discoverTrace env rest
      (r.1, c :: r.2)

/-- A `Session` as constructed by
`SharedRefBase::make<Session>(mDevice, mUdfpsHandler, userId, cb,
mLockoutTracker)`. The session's own behaviour lives in `Session.cpp`,
outside the verified sources; all the coordinator reads back from it is
`isClosed()`, modelled by the `closed` field (modelled from the spec: a
freshly created session is the active, open session, so `closed = false`
at construction). -/
structure Session where
  device : Option Nat
  udfpsHandler : Option Nat
  userId : Int
  callback : Nat
  lockoutTracker : Nat
  closed : Bool
  deriving DecidableEq, Repr

/-- The member state of a `Fingerprint` object (`Fingerprint.h`). -/
structure FingerprintState where
  mSession : Option Session
  mLockoutTracker : Nat
  mSensorType : FingerprintSensorType
  mMaxEnrollmentsPerUser : Int
  mSupportsGestures : Bool
  mDevice : Option Nat
  mUdfpsHandlerFactory : Option Nat
  mUdfpsHandler : Option Nat
  deriving DecidableEq, Repr

/-- The process-wide static state: `static Fingerprint* sInstance`, modelled
as an optional identifier of the coordinator object it points at. -/
structure GlobalState where
  sInstance : Option Nat
  deriving DecidableEq, Repr

/-- The `Fingerprint` constructor: initialize the members, set `sInstance`
to this object, run the discovery loop over `kModules`, and (UDFPS builds
only) obtain and initialize the UDFPS handler. `self` identifies the object
being constructed; `lockout` is the default-constructed `mLockoutTracker`.
Returns the new global state and the constructed member state. -/
def fingerprintCtor (cfg : BuildConfig) (env : HalEnv) (g : GlobalState)
    (self : Nat) (lockout : Nat) : GlobalState × FingerprintState :=
  let g1 : GlobalState := { g with sInstance := some self }
  let dev := (discoverTrace env kModules).1
  let factory : Option Nat :=
    if cfg.usesUdfpsSensor ∧ env.udfpsFactoryNonNull then some 1 else none
  let handler : Option Nat :=
    if cfg.usesUdfpsSensor ∧ env.udfpsFactoryNonNull ∧ env.udfpsCreateNonNull
    then some env.udfpsHandlerOf else none
  (g1,
   { mSession := none
     mLockoutTracker := lockout
     mSensorType :=
       if cfg.usesUdfpsSensor then FingerprintSensorType.UNDER_DISPLAY_OPTICAL
       else FingerprintSensorType.UNKNOWN
     mMaxEnrollmentsPerUser := MAX_ENROLLMENTS_PER_USER
     mSupportsGestures := false
     mDevice := dev
     mUdfpsHandlerFactory := factory
     mUdfpsHandler := handler })

/-- The `Fingerprint` destructor. `closeStatus d` is the value returned by
`mDevice->common.close(...)` on handle `d`. Returns the global state, the
final member state, and the list of handles on which `close` was invoked,
in order. The destructor never writes `sInstance`; `mDevice` is set to
`nullptr` only when `close` returns `0`. -/
def fingerprintDtor (g : GlobalState) (st : FingerprintState)
    (closeStatus : Nat → Int) : GlobalState × FingerprintState × List Nat :=
  match st.mDevice with
  | none => (g, st, [])
  | some d =>
    if closeStatus d ≠ 0 then (g, st, [d])
    else (g, { st with mDevice := none }, [d])

/-- Result of `Fingerprint::notify`: either the event is logged and dropped,
or it is forwarded to `thisPtr->mSession->notify(msg)`; `forwarded s m`
records the receiving session and the payload as passed. -/
inductive NotifyResult where
  | dropped
  | forwarded (s : Session) (msg : Nat)
  deriving DecidableEq, Repr

/-- `Fingerprint::notify`: read `sInstance` (resolved here to the member
state of the coordinator it points at, `none` when the pointer is null);
drop the event if there is no instance, no session, or the session is
closed; otherwise forward the payload unchanged. -/
def notify (inst : Option FingerprintState) (msg : Nat) : NotifyResult :=
  match inst with
  | none => NotifyResult.dropped
  | some thisPtr =>
    match thisPtr.mSession with
    | none => NotifyResult.dropped
    | some s => if s.closed then NotifyResult.dropped else NotifyResult.forwarded s msg

/-- `Fingerprint::getSensorProps`. `defLoc` is the default-constructed
`SensorLocation` (its AIDL default field values are external to these
sources). Returns the member state after the call, the returned status, and
the vector written through `out`. -/
def getSensorProps (cfg : BuildConfig) (defLoc : SensorLocation)
    (st : FingerprintState) : FingerprintState × Status × List SensorProps :=
  let componentInfo : List ComponentInfo :=
    [⟨HW_COMPONENT_ID, HW_VERSION, FW_VERSION, SERIAL_NUMBER, ""⟩,
     ⟨SW_COMPONENT_ID, "", "", "", SW_VERSION⟩]
  let commonProps : CommonProps :=
    ⟨SENSOR_ID, SENSOR_STRENGTH, st.mMaxEnrollmentsPerUser, componentInfo⟩
  let x : Int := if cfg.usesUdfpsSensor then cfg.udfpsLocationX else -1
  let y : Int := if cfg.usesUdfpsSensor then cfg.udfpsLocationY else -1
  let r : Int := if cfg.usesUdfpsSensor then cfg.udfpsRadius else -1
  let sensorLocation : SensorLocation :=
    if x ≥ 0 ∧ y ≥ 0 ∧ r ≥ 0 then ⟨x, y, r⟩ else defLoc
  (st, Status.ok,
   [⟨commonProps, st.mSensorType, [sensorLocation], st.mSupportsGestures,
     false, false, false, none⟩])

/-- Result of `Fingerprint::createSession`: `aborted st` models the `CHECK`
macro killing the process (with the member state, untouched by the check, at
that moment); `ok st status sess` is normal completion with the new member
state, the returned status, and the session written through `out`. -/
inductive CreateSessionResult where
  | aborted (st : FingerprintState)
  | ok (st : FingerprintState) (status : Status) (sess : Session)
  deriving DecidableEq, Repr

/-- The `CHECK(mSession == nullptr || mSession->isClosed())` condition. -/
def sessionCheckPasses (st : FingerprintState) : Bool :=
  match st.mSession with
  | none => true
  | some s => s.closed

/-- The `Session` constructed by `createSession` via
`SharedRefBase::make<Session>(mDevice, mUdfpsHandler, userId, cb,
mLockoutTracker)`. -/
def newSessionOf (st : FingerprintState) (userId : Int) (cb : Nat) : Session :=
  { device := st.mDevice
    udfpsHandler := st.mUdfpsHandler
    userId := userId
    callback := cb
    lockoutTracker := st.mLockoutTracker
    closed := false }

/-- `Fingerprint::createSession`: `CHECK` the single-open-session invariant
(aborting on violation), then construct a new `Session` from `mDevice`,
`mUdfpsHandler`, `userId`, `cb` and `mLockoutTracker`, store it in
`mSession`, write it through `out`, link it to the callback's death
notification, and return ok. The `sensorId` parameter is unnamed and unused
in the source. -/
def createSession (st : FingerprintState) (sensorId : Int) (userId : Int)
    (cb : Nat) : CreateSessionResult :=
  if sessionCheckPasses st then
    CreateSessionResult.ok { st with mSession := some (newSessionOf st userId cb) }
      Status.ok (newSessionOf st userId cb)
  else
    CreateSessionResult.aborted st

/-! ### Sample values used by witnesses and counterexamples -/

/-- A sample open (not closed) session. -/
def sampleOpenSession : Session :=
  { device := some 1, udfpsHandler := none, userId := 42, callback := 7,
    lockoutTracker := 0, closed := false }

/-- A coordinator state holding an open session and a device. -/
def stWithOpenSession : FingerprintState :=
  { mSession := some sampleOpenSession, mLockoutTracker := 0,
    mSensorType := FingerprintSensorType.UNKNOWN, mMaxEnrollmentsPerUser := 7,
    mSupportsGestures := false, mDevice := some 1,
    mUdfpsHandlerFactory := none, mUdfpsHandler := none }

/-- A coordinator state with a device but no session. -/
def stNoSession : FingerprintState :=
  { stWithOpenSession with mSession := none }

/-- A coordinator state with neither a device nor a session (the state after
a construction in which every backend candidate failed). -/
def stNoDeviceNoSession : FingerprintState :=
  { stNoSession with mDevice := none }

/-- A backend environment in which candidate `fpc` fails to resolve and every
other candidate resolves, opens as device `7`, and registers successfully. -/
def sampleEnv : HalEnv :=
  { getModuleStatus := fun c => if c = "fpc" then 1 else 0
    moduleNonNull := fun _ => true
    openMethodNonNull := fun _ => true
    openStatus := fun _ => 0
    deviceOf := fun _ => 7
    setNotifyStatus := fun _ => 0
    udfpsFactoryNonNull := false
    udfpsCreateNonNull := false
    udfpsHandlerOf := 0 }

/-- A backend environment in which every candidate fails to resolve. -/
def failEnv : HalEnv :=
  { sampleEnv with getModuleStatus := fun _ => -1 }

/-! ### C1 -/

/-- C1: if `createSession` is called while an existing session is non-null
and not closed, the `CHECK` aborts with the member state (and hence the first
session) untouched; if no session exists or the existing session reports
itself closed, the call proceeds to normal completion with an ok status. -/
theorem createSession_single_session_contract
    (st : FingerprintState) (sid uid : Int) (cb : Nat) :
    (∀ s, st.mSession = some s → s.closed = false →
      createSession st sid uid cb = CreateSessionResult.aborted st)
    ∧ (sessionCheckPasses st = true →
      ∃ st2 sess, createSession st sid uid cb = CreateSessionResult.ok st2 Status.ok sess) := by
  constructor
  · intro s hs hclosed
    simp [createSession, sessionCheckPasses, hs, hclosed]
  · intro hpass
    refine ⟨{ st with mSession := some (newSessionOf st uid cb) }, newSessionOf st uid cb, ?_⟩
    unfold createSession
    rw [hpass]
    exact if_pos rfl

/-- Witness for C1: with an open session the call aborts leaving the state
as it was; with no session the call completes normally. -/
theorem createSession_single_session_contract_witness :
    (createSession stWithOpenSession 0 42 7 = CreateSessionResult.aborted stWithOpenSession)
    ∧ ∃ st2 sess, createSession stNoSession 0 42 7 = CreateSessionResult.ok st2 Status.ok sess :=
  ⟨(createSession_single_session_contract stWithOpenSession 0 42 7).1 sampleOpenSession rfl rfl,
   (createSession_single_session_contract stNoSession 0 42 7).2 rfl⟩

/-! ### C2 -/

/-- C2: discovery walks the ordered candidate list; a candidate for which
`openHal` fails is skipped and the loop continues with the next candidate,
and the first candidate whose `openHal` succeeds ends the loop. In
particular, for a list `A :: B :: rest` where `A` fails and `B` opens as
device `d`, the result is `d` and the attempted candidates are exactly
`[A, B]`: no candidate in `rest` is ever invoked. -/
theorem discover_first_success
    (env : HalEnv) (A B : String) (rest : List String) (d : Nat)
    (hA : openHal env A = none) (hB : openHal env B = some d) :
    (∀ c cs, openHal env c = none →
      discoverTrace env (c :: cs) = ((discoverTrace env cs).1, c :: (discoverTrace env cs).2))
    ∧ discoverTrace env (A :: B :: rest) = (some d, [A, B]) := by
  constructor
  · intro c cs hc
    simp [discoverTrace, hc]
  · simp [discoverTrace, hA, hB]

/-- Witness for C2: in `sampleEnv`, `fpc` fails to resolve, `fpc_fod` opens
as device `7`, and discovery over `[fpc, fpc_fod, goodix]` returns `7` having
attempted exactly `[fpc, fpc_fod]`. -/
theorem discover_first_success_witness :
    discoverTrace sampleEnv ["fpc", "fpc_fod", "goodix"] = (some 7, ["fpc", "fpc_fod"]) :=
  (discover_first_success sampleEnv "fpc" "fpc_fod" ["goodix"] 7
    (by decide) (by decide)).2

/-! ### C3 -/

/-- C3: the static notification entry point drops the event when the
process-wide instance is absent, the active session is absent, or the active
session reports itself closed; otherwise it forwards the payload unchanged
to the active session. -/
theorem notify_routing (inst : Option FingerprintState) (msg : Nat) :
    ((inst = none
      ∨ (∃ t, inst = some t ∧ t.mSession = none)
      ∨ (∃ t s, inst = some t ∧ t.mSession = some s ∧ s.closed = true)) →
      notify inst msg = NotifyResult.dropped)
    ∧ (∀ t s, inst = some t → t.mSession = some s → s.closed = false →
      notify inst msg = NotifyResult.forwarded s msg) := by
  constructor
  · rintro (rfl | ⟨t, rfl, ht⟩ | ⟨t, s, rfl, ht, hs⟩)
    · rfl
    · simp [notify, ht]
    · simp [notify, ht, hs]
  · rintro t s rfl ht hs
    simp [notify, ht, hs]

/-- Witness for C3: with no instance the event is dropped; with an instance
holding an open session the payload `5` is forwarded unchanged. -/
theorem notify_routing_witness :
    notify none 5 = NotifyResult.dropped
    ∧ notify (some stWithOpenSession) 5 = NotifyResult.forwarded sampleOpenSession 5 :=
  ⟨(notify_routing none 5).1 (Or.inl rfl),
   (notify_routing (some stWithOpenSession) 5).2 stWithOpenSession sampleOpenSession rfl rfl rfl⟩

/-! ### C4 -/

/-- If every candidate's `openHal` fails, the discovery loop walks the whole
list and ends with no device. -/
theorem discoverTrace_all_fail (env : HalEnv) :
    ∀ cands : List String, (∀ c ∈ cands, openHal env c = none) →
      discoverTrace env cands = (none, cands) := by
  intro cands
  induction cands with
  | nil => intro _; rfl
  | cons c cs ih =>
    intro h
    have hc : openHal env c = none := h c (List.mem_cons_self c cs)
    have ihcs := ih (fun x hx => h x (List.mem_cons_of_mem c hx))
    simp [discoverTrace, hc, ihcs]

/-- Counterexample for C4 as stated. The claim says that after discovery
fails for every candidate, a subsequent `createSession` "fails, reporting
that no valid device is available". In the source, `createSession` never
inspects `mDevice`: with all candidates failing (`failEnv`) the device is
indeed absent, but `createSession` then completes normally, returning
`ndk::ScopedAStatus::ok()` and a session whose device reference is null. -/
theorem createSession_no_device_counterexample :
    (discoverTrace failEnv kModules).1 = none ∧
    createSession stNoDeviceNoSession 0 42 7 =
      CreateSessionResult.ok
        { stNoDeviceNoSession with mSession := some (newSessionOf stNoDeviceNoSession 42 7) }
        Status.ok (newSessionOf stNoDeviceNoSession 42 7) ∧
    (newSessionOf stNoDeviceNoSession 42 7).device = none := by
  refine ⟨by decide, rfl, rfl⟩

/-- Amended C4: when every backend candidate fails, the device handle
remains absent; a subsequent `createSession` call performs no device check
and does not crash: it proceeds, constructs a session bound to the absent
device handle, and returns success. -/
theorem createSession_no_device_amended
    (env : HalEnv) (cands : List String)
    (hall : ∀ c ∈ cands, openHal env c = none)
    (st : FingerprintState) (sid uid : Int) (cb : Nat)
    (hdev : st.mDevice = none) (hpass : sessionCheckPasses st = true) :
    (discoverTrace env cands).1 = none ∧
    createSession st sid uid cb =
      CreateSessionResult.ok { st with mSession := some (newSessionOf st uid cb) }
        Status.ok (newSessionOf st uid cb) ∧
    (newSessionOf st uid cb).device = none := by
  refine ⟨?_, ?_, ?_⟩
  · rw [discoverTrace_all_fail env cands hall]
  · unfold createSession
    rw [hpass]
    exact if_pos rfl
  · simp [newSessionOf, hdev]

/-- Witness for the amended C4, at the all-fail environment and the
post-construction state with no device and no session. -/
theorem createSession_no_device_amended_witness :
    (discoverTrace failEnv kModules).1 = none ∧
    createSession stNoDeviceNoSession 1 42 7 =
      CreateSessionResult.ok
        { stNoDeviceNoSession with mSession := some (newSessionOf stNoDeviceNoSession 42 7) }
        Status.ok (newSessionOf stNoDeviceNoSession 42 7) ∧
    (newSessionOf stNoDeviceNoSession 42 7).device = none :=
  createSession_no_device_amended failEnv kModules (by decide)
    stNoDeviceNoSession 1 42 7 rfl rfl

/-! ### C5 -/

/-- C5: `getSensorProps` always writes exactly one descriptor; its
component-info sequence has exactly two entries and its `sensorId` is the
constant `SENSOR_ID`, for every configuration and every member state (in
particular whatever `mDevice` is). -/
theorem getSensorProps_descriptor_shape
    (cfg : BuildConfig) (defLoc : SensorLocation) (st : FingerprintState) :
    ∃ p, (getSensorProps cfg defLoc st).2.2 = [p] ∧
      p.commonProps.componentInfo.length = 2 ∧
      p.commonProps.sensorId = SENSOR_ID :=
  ⟨_, rfl, rfl, rfl⟩

/-! ### C6 -/

/-- A UDFPS-build coordinator state (no session, device open). -/
def stUdfps : FingerprintState :=
  { stNoSession with mSensorType := FingerprintSensorType.UNDER_DISPLAY_OPTICAL }

/-- Counterexample for C6 as stated. The claim says that when the
configuration supplies `radius = -1` the location is absent from the
descriptor. In the source the descriptor's locations vector is always
`{sensorLocation}`: with x = 5, y = 5, radius = -1 (and default-constructed
location `⟨0, 0, 0⟩`) the returned descriptor still carries exactly one
location entry — the default-constructed one — so a location is present,
not absent. -/
theorem getSensorProps_location_counterexample :
    ((getSensorProps ⟨true, 5, 5, -1⟩ ⟨0, 0, 0⟩ stUdfps).2.2).map
        SensorProps.sensorLocations = [[⟨0, 0, 0⟩]] := by
  decide

/-- Amended C6: the descriptor always carries exactly one location entry;
that entry holds the configured x, y, radius iff all three are
simultaneously non-negative, and otherwise (the failure being logged, not
raised) it is left as the default-constructed location. -/
theorem getSensorProps_location_amended
    (cfg : BuildConfig) (defLoc : SensorLocation) (st : FingerprintState)
    (x y r : Int)
    (hx : x = if cfg.usesUdfpsSensor then cfg.udfpsLocationX else -1)
    (hy : y = if cfg.usesUdfpsSensor then cfg.udfpsLocationY else -1)
    (hr : r = if cfg.usesUdfpsSensor then cfg.udfpsRadius else -1) :
    ((x ≥ 0 ∧ y ≥ 0 ∧ r ≥ 0) →
      ((getSensorProps cfg defLoc st).2.2).map SensorProps.sensorLocations
        = [[⟨x, y, r⟩]]) ∧
    (¬ (x ≥ 0 ∧ y ≥ 0 ∧ r ≥ 0) →
      ((getSensorProps cfg defLoc st).2.2).map SensorProps.sensorLocations
        = [[defLoc]]) := by
  subst hx hy hr
  constructor <;> intro h <;> simp [getSensorProps, h]

/-- Witness for the amended C6: a UDFPS configuration with (3, 4, 5) yields
the configured location; one with radius -2 keeps the default entry. -/
theorem getSensorProps_location_amended_witness :
    ((getSensorProps ⟨true, 3, 4, 5⟩ ⟨0, 0, 0⟩ stUdfps).2.2).map
        SensorProps.sensorLocations = [[⟨3, 4, 5⟩]] ∧
    ((getSensorProps ⟨true, 3, 4, -2⟩ ⟨0, 0, 0⟩ stUdfps).2.2).map
        SensorProps.sensorLocations = [[⟨0, 0, 0⟩]] :=
  ⟨(getSensorProps_location_amended ⟨true, 3, 4, 5⟩ ⟨0, 0, 0⟩ stUdfps
      3 4 5 rfl rfl rfl).1 (by decide),
   (getSensorProps_location_amended ⟨true, 3, 4, -2⟩ ⟨0, 0, 0⟩ stUdfps
      3 4 (-2) rfl rfl rfl).2 (by decide)⟩

/-! ### C7 -/

/-- Counterexample for C7 as stated. The claim says a nonzero close result
"does not prevent the handle from being treated as released afterward". The
destructor marks release by writing `mDevice = nullptr`, but only on the
zero-status path; on a nonzero close result it returns early, leaving
`mDevice` still holding the handle. Concretely: with device `1` open and
`close` returning `5`, teardown returns with `mDevice` still `some 1`, the
handle not marked released. -/
theorem fingerprintDtor_close_failure_counterexample :
    fingerprintDtor ⟨some 9⟩ stNoSession (fun _ => 5) = (⟨some 9⟩, stNoSession, [1]) ∧
    stNoSession.mDevice = some 1 := by
  refine ⟨rfl, rfl⟩

/-- Amended C7: if the device handle is null the destructor is a no-op on
the state (logging aside); otherwise it invokes the backend's close exactly
once, never raises, and clears `mDevice` only when close returns zero — on a
nonzero close result the member state (including `mDevice`) is left
unchanged. -/
theorem fingerprintDtor_spec
    (g : GlobalState) (st : FingerprintState) (closeStatus : Nat → Int) :
    (st.mDevice = none → fingerprintDtor g st closeStatus = (g, st, [])) ∧
    (∀ d, st.mDevice = some d →
      (fingerprintDtor g st closeStatus).1 = g ∧
      (fingerprintDtor g st closeStatus).2.2 = [d] ∧
      (closeStatus d = 0 →
        (fingerprintDtor g st closeStatus).2.1 = { st with mDevice := none }) ∧
      (closeStatus d ≠ 0 → (fingerprintDtor g st closeStatus).2.1 = st)) := by
  constructor
  · intro h
    simp [fingerprintDtor, h]
  · intro d hd
    by_cases hc : closeStatus d = 0 <;>
      simp [fingerprintDtor, hd, hc]

/-- Witness for the amended C7: the null-device no-op, a successful close
clearing the handle, and a failing close leaving the state unchanged. -/
theorem fingerprintDtor_spec_witness :
    fingerprintDtor ⟨some 9⟩ stNoDeviceNoSession (fun _ => 0)
      = (⟨some 9⟩, stNoDeviceNoSession, []) ∧
    (fingerprintDtor ⟨some 9⟩ stNoSession (fun _ => 0)).2.1
      = { stNoSession with mDevice := none } ∧
    (fingerprintDtor ⟨some 9⟩ stNoSession (fun _ => 5)).2.1 = stNoSession :=
  ⟨(fingerprintDtor_spec ⟨some 9⟩ stNoDeviceNoSession (fun _ => 0)).1 rfl,
   ((fingerprintDtor_spec ⟨some 9⟩ stNoSession (fun _ => 0)).2 1 rfl).2.2.1 rfl,
   ((fingerprintDtor_spec ⟨some 9⟩ stNoSession (fun _ => 5)).2 1 rfl).2.2.2 (by decide)⟩

/-! ### C8 -/

/-- C8: the constructor sets the process-wide `sInstance` to the object
being constructed, and the destructor never writes `sInstance`: whatever the
global state holds before destruction, it holds unchanged afterwards (so
after destroying the most recent coordinator it still points at that
destroyed instance until another constructor runs). -/
theorem sInstance_set_on_ctor_unchanged_on_dtor
    (cfg : BuildConfig) (env : HalEnv) (g g2 : GlobalState) (self lockout : Nat)
    (st2 : FingerprintState) (closeStatus : Nat → Int) :
    (fingerprintCtor cfg env g self lockout).1.sInstance = some self ∧
    (fingerprintDtor g2 st2 closeStatus).1 = g2 := by
  constructor
  · rfl
  · unfold fingerprintDtor
    split
    · rfl
    · split <;> rfl

/-! ### C9 -/

/-- C9: `getSensorProps` leaves the member state exactly as it was — every
field unchanged — and returns the ok status. -/
theorem getSensorProps_no_side_effects
    (cfg : BuildConfig) (defLoc : SensorLocation) (st : FingerprintState) :
    (getSensorProps cfg defLoc st).1 = st ∧
    (getSensorProps cfg defLoc st).2.1 = Status.ok :=
  ⟨rfl, rfl⟩

/-! ### C10 -/

/-- C10: `createSession` never reads its `sensorId` argument: two calls from
the same state with the same `userId` and callback but different `sensorId`
values produce identical results (same status, same session, same resulting
state). -/
theorem createSession_independent_of_sensorId
    (st : FingerprintState) (sid1 sid2 uid : Int) (cb : Nat) :
    createSession st sid1 uid cb = createSession st sid2 uid cb :=
  rfl

end Fingerprint
